import Mathlib

/-!
# EcoHealth Monitor — verification of the check-in workflow and persistence model

Shallow embedding of the core of the `ecohealth-monitor` repository:

* the data model (`src/types.ts`): enums, `User`, `SurveyAnswers`,
  `AIAnalysisResult`, `CheckInRecord`;
* the localStorage-backed store (`src/services/mockStore.ts` /
  `src/services/storage.ts`): `getUsers`, `saveUser`, `getUserByEmail`,
  `deleteUser`, `getCheckIns`, `saveCheckIn`, `getCheckInsByUser`,
  `loginUser`, `registerUser`, `logoutUser`, `getCurrentSession`;
* the gateway fallback behaviour (`src/services/geminiService.ts`):
  `validateFace` and `analyzeFatigue` absorb every transport/auth/parse
  failure into a typed fallback result;
* the check-in workflow step `handleSurveySubmit` (`src/App.tsx`).

The browser `localStorage` is modelled as an explicit state record
`StoreState` threaded through every operation; `undefined`/`null` fields
become `Option`; a thrown `Error` becomes `Except.error` returned together
with the (unchanged) state.
-/

namespace EcoHealth

/-- `UserRole` enum from `src/types.ts`. -/
inductive UserRole where
  | TECHNICIAN
  | SUPERVISOR
  | ADMIN
deriving DecidableEq, Repr

/-- `RiskLevel` enum from `src/types.ts`. -/
inductive RiskLevel where
  | LOW
  | MODERATE
  | HIGH
  | INVALID
deriving DecidableEq, Repr

/-- `CheckInType` enum from `src/types.ts`. -/
inductive CheckInType where
  | START_SHIFT
  | BREAK
  | END_SHIFT
deriving DecidableEq, Repr

/-- `BusinessUnit` enum from `src/types.ts`. -/
inductive BusinessUnit where
  | SECURE_POWER
  | POWER_SYSTEMS
deriving DecidableEq, Repr

/-- `Segment` enum from `src/types.ts`. -/
inductive Segment where
  | UPS
  | COOLING
  | ENERGY
  | ASSISTENCIA_TECNICA
deriving DecidableEq, Repr

/-- `Language` union type from `src/types.ts` (`'en' | 'pt' | 'es'`). -/
inductive Language where
  | en
  | pt
  | es
deriving DecidableEq, Repr

/-- `SurveyAnswers` interface from `src/types.ts`. -/
structure SurveyAnswers where
  sleepQuality : Nat
  energyLevel : Nat
  focusLevel : Nat
  motivationLevel : Nat
  feelingSafe : Nat
deriving DecidableEq, Repr

/-- `AIAnalysisResult` interface from `src/types.ts`; the JS `number`
`fatigueLevel` is modelled as a rational. -/
structure AIAnalysisResult where
  fatigueLevel : ℚ
  riskLevel : RiskLevel
  explanation : String
  recommendation : String
deriving DecidableEq, Repr

/-- The `location : { lat, lng }` payload of a `CheckInRecord`. -/
structure GeoPoint where
  lat : ℚ
  lng : ℚ
deriving DecidableEq, Repr

/-- `CheckInRecord` interface from `src/types.ts`; optional fields become
`Option`. -/
structure CheckInRecord where
  id : String
  userId : String
  timestamp : String
  type : CheckInType
  imageUrl : Option String
  surveyAnswers : Option SurveyAnswers
  analysis : Option AIAnalysisResult
  location : Option GeoPoint
deriving DecidableEq, Repr

/-- `User` interface from `src/types.ts`; optional fields become `Option`. -/
structure User where
  id : String
  name : String
  email : String
  role : UserRole
  avatarUrl : Option String
  password : Option String
  businessUnit : Option BusinessUnit
  segment : Option Segment
deriving DecidableEq, Repr

/-- The three `localStorage` collections used by `src/services/mockStore.ts`:
`ecohealth_users`, `ecohealth_checkins`, `ecohealth_session`. -/
structure StoreState where
  users : List User
  checkins : List CheckInRecord
  session : Option User
deriving DecidableEq, Repr

/-- `getUsers` (`mockStore.ts`): read the full user collection. -/
def getUsers (s : StoreState) : List User :=
  s.users

/-- `saveUser` (`mockStore.ts`): `users.push(user)` then write back — appends
the user at the end of the collection. -/
def saveUser (user : User) (s : StoreState) : StoreState :=
  { s with users := s.users ++ [user] }

/-- JavaScript `String.prototype.toLowerCase`, modelled as character-wise
lowercasing of the string's characters. -/
def jsToLower (s : String) : String :=
  ⟨s.data.map Char.toLower⟩

/-- `getUserByEmail` (`mockStore.ts`): first user whose email matches
case-insensitively (`u.email.toLowerCase() === email.toLowerCase()`). -/
def getUserByEmail (email : String) (s : StoreState) : Option User :=
  s.users.find? (fun u => jsToLower u.email == jsToLower email)

/-- `deleteUser` (`mockStore.ts`): filter the user out of the user collection
and filter every check-in with that `userId` out of the check-in collection. -/
def deleteUser (userId : String) (s : StoreState) : StoreState :=
  { s with
    users := s.users.filter (fun u => u.id ≠ userId),
    checkins := s.checkins.filter (fun r => r.userId ≠ userId) }

/-- `getCheckIns` (`mockStore.ts`): read the full check-in collection. -/
def getCheckIns (s : StoreState) : List CheckInRecord :=
  s.checkins

/-- `saveCheckIn` (`mockStore.ts`): `records.unshift(record)` then write back —
inserts the record at the head of the collection. -/
def saveCheckIn (record : CheckInRecord) (s : StoreState) : StoreState :=
  { s with checkins := record :: s.checkins }

/-- `getCheckInsByUser` (`mockStore.ts`): all check-ins whose `userId`
matches. -/
def getCheckInsByUser (userId : String) (s : StoreState) : List CheckInRecord :=
  (getCheckIns s).filter (fun r => r.userId == userId)

/-- The `{ ...user }` copy with `delete sessionUser.password` applied
(`loginUser` / `registerUser` in `mockStore.ts`). -/
def stripPassword (u : User) : User :=
  { u with password := none }

/-- The message of the `Error` thrown by `loginUser` on a failed login. -/
def invalidCredentialsMsg : String := "Invalid email or password"

/-- The message of the `Error` thrown by `registerUser` on a duplicate
email. -/
def emailAlreadyRegisteredMsg : String := "Email already registered"

/-- `loginUser` (`mockStore.ts`): look up by case-insensitive email; throw if
absent or `user.password !== password`; otherwise store the
password-stripped copy as the session and return it.  The thrown `Error`
is modelled as `Except.error` paired with the unchanged state. -/
def loginUser (email password : String) (s : StoreState) :
    Except String User × StoreState :=
  match getUserByEmail email s with
  | none => (Except.error invalidCredentialsMsg, s)
  | some user =>
    if user.password ≠ some password then
      (Except.error invalidCredentialsMsg, s)
    else
      let sessionUser := stripPassword user
      (Except.ok sessionUser, { s with session := some sessionUser })

/-- The default avatar URL `registerUser` assigns when none is supplied
(the dicebear seed template string). -/
def defaultAvatarUrl (name : String) : String :=
  "https://api.dicebear.com/7.x/avataaars/svg?seed=" ++ name

/-- The `avatarUrl || default` expression in `registerUser`: JavaScript `||`
falls through on `undefined` and on the empty string. -/
def avatarOrDefault (avatarUrl : Option String) (name : String) : String :=
  match avatarUrl with
  | some a => if a = "" then defaultAvatarUrl name else a
  | none => defaultAvatarUrl name

/-- The `newUser` record literal built inside `registerUser`
(`mockStore.ts`); `newId` stands for the `` `user-${Date.now()}` `` id. -/
def mkNewUser (name email password : String) (role : UserRole)
    (avatarUrl : Option String) (businessUnit : Option BusinessUnit)
    (segment : Option Segment) (newId : String) : User :=
  { id := newId
    name := name
    email := email
    role := role
    avatarUrl := some (avatarOrDefault avatarUrl name)
    password := some password
    businessUnit := businessUnit
    segment := segment }

/-- `registerUser` (`mockStore.ts`): throw if `getUserByEmail(email)` finds a
user; otherwise append the new user (with its password) via `saveUser`,
store the password-stripped copy as the session, and return that copy. -/
def registerUser (name email password : String) (role : UserRole)
    (avatarUrl : Option String) (businessUnit : Option BusinessUnit)
    (segment : Option Segment) (newId : String) (s : StoreState) :
    Except String User × StoreState :=
  if (getUserByEmail email s).isSome then
    (Except.error emailAlreadyRegisteredMsg, s)
  else
    let newUser := mkNewUser name email password role avatarUrl businessUnit
      segment newId
    let s₁ := saveUser newUser s
    let sessionUser := stripPassword newUser
    (Except.ok sessionUser, { s₁ with session := some sessionUser })

/-- `logoutUser` (`mockStore.ts`): remove the session key. -/
def logoutUser (s : StoreState) : StoreState :=
  { s with session := none }

/-- `getCurrentSession` (`mockStore.ts`): read the session key. -/
def getCurrentSession (s : StoreState) : Option User :=
  s.session

/-- The `{ isValid, message? }` result of `validateFace`
(`src/services/geminiService.ts`). -/
structure FaceCheckResult where
  isValid : Bool
  message : Option String
deriving DecidableEq, Repr

/-- The connection-error message returned by the `catch` branch of
`validateFace` in `geminiService.ts`. -/
def faceConnectionErrorMsg : String := "AI Connection Error. Check Key."

/-- `validateFace` (`geminiService.ts`): the whole body is wrapped in
`try/catch`.  The external model call either yields a parsed result
(`some r`) or fails in any way — missing API key, transport/auth error,
JSON parse error — modelled as `none`; the `catch` branch then returns
`{ isValid: false, message: "AI Connection Error. Check Key." }`. -/
def validateFace (outcome : Option FaceCheckResult) : FaceCheckResult :=
  match outcome with
  | some r => r
  | none => { isValid := false, message := some faceConnectionErrorMsg }

/-- The `catch` branch of `analyzeFatigue` in `geminiService.ts`: fallback
result with `fatigueLevel: 0`, `riskLevel: INVALID` and messages chosen by
`lang === 'pt'`. -/
def analyzeFallback (lang : Language) : AIAnalysisResult :=
  { fatigueLevel := 0
    riskLevel := RiskLevel.INVALID
    explanation :=
      if lang = Language.pt then
        "Erro na conexão com IA ou Chave de API inválida."
      else
        "AI Connection Error."
    recommendation :=
      if lang = Language.pt then "Tente novamente mais tarde." else "Try again." }

/-- `analyzeFatigue` (`geminiService.ts`): the whole body is wrapped in
`try/catch`.  The external model call either yields a parsed
`AIAnalysisResult` (`some r`) or fails in any way — modelled as `none`;
the `catch` branch then returns the localized fallback. -/
def analyzeFatigue (outcome : Option AIAnalysisResult) (lang : Language) :
    AIAnalysisResult :=
  match outcome with
  | some r => r
  | none => analyzeFallback lang

/-- Modelled from the spec: the RiskEngine scoring contract (§4.2) is
enforced on the gateway side — it exists in the repository only as the
prompt text of `analyzeFatigue` (`geminiService.ts`, "CRITICAL SCORING
RULE (80/20 SPLIT)"), executed by the external model, not by local code.
`FinalScore = VisualFatigueScore * 0.8 + SurveyScore * 0.2`. -/
def finalScore (visual survey : ℚ) : ℚ :=
  visual * (8 / 10) + survey * (2 / 10)

/-- Modelled from the spec: the risk-tier decision of the RiskEngine (§4.2).
The spec fixes the expression pre-check (fail fast to INVALID) and the
override rule (VisualFatigueScore > 70 forces HIGH) but leaves the
LOW/MODERATE/HIGH cutoffs on `FinalScore` as a configurable policy, here
an arbitrary `tier : ℚ → RiskLevel` applied to `finalScore`. -/
def riskDecision (expressionValid : Bool) (tier : ℚ → RiskLevel)
    (visual survey : ℚ) : RiskLevel :=
  if ¬expressionValid then RiskLevel.INVALID
  else if visual > 70 then RiskLevel.HIGH
  else tier (finalScore visual survey)

/-- The `View` enum of `src/App.tsx` (only the members the workflow step
touches matter to the claims, but all are kept). -/
inductive View where
  | DASHBOARD
  | CHECK_IN_CAMERA
  | CHECK_IN_VALIDATING
  | CHECK_IN_SURVEY
  | CHECK_IN_RESULT
  | TEAM_OVERVIEW
  | ADMIN_PANEL
deriving DecidableEq, Repr

/-- The pieces of React component state of `App.tsx` that
`handleSurveySubmit` reads or writes: `tempImage`, `currentUser`,
`selectedCheckInType`, `currentView`, `lastResult`. -/
structure AppFlowState where
  tempImage : Option String
  currentUser : Option User
  selectedCheckInType : CheckInType
  currentView : View
  lastResult : Option AIAnalysisResult
deriving Repr

/-- The `newRecord` literal built inside `handleSurveySubmit` (`App.tsx`);
`newId` stands for `` `chk-${Date.now()}` `` and `timestamp` for
`new Date().toISOString()`. -/
def mkNewRecord (newId timestamp : String) (user : User) (ty : CheckInType)
    (img : String) (answers : SurveyAnswers) (analysis : AIAnalysisResult) :
    CheckInRecord :=
  { id := newId
    userId := user.id
    timestamp := timestamp
    type := ty
    imageUrl := some img
    surveyAnswers := some answers
    analysis := some analysis
    location := some { lat := 0, lng := 0 } }

/-- `handleSurveySubmit` (`App.tsx`).  The guard
`if (!tempImage || !currentUser) return;` drops out on a missing (or, by
JavaScript falsiness, empty-string) image or missing user.  `analysis` is
the value produced by the awaited `analyzeFatigue` call (which never
throws).  If `analysis.riskLevel === INVALID` the result view is shown and
the function returns without saving; otherwise the new record is built,
`saveCheckIn` runs, and the result view is shown. -/
def handleSurveySubmit (analysis : AIAnalysisResult) (answers : SurveyAnswers)
    (newId timestamp : String) (app : AppFlowState) (s : StoreState) :
    AppFlowState × StoreState :=
  match app.tempImage, app.currentUser with
  | some img, some user =>
    if img = "" then (app, s)
    else if analysis.riskLevel = RiskLevel.INVALID then
      ({ app with lastResult := some analysis,
                  currentView := View.CHECK_IN_RESULT }, s)
    else
      let newRecord := mkNewRecord newId timestamp user
        app.selectedCheckInType img answers analysis
      ({ app with lastResult := some analysis,
                  currentView := View.CHECK_IN_RESULT },
       saveCheckIn newRecord s)
  | _, _ => (app, s)

/-! ### Concrete fixtures used to instantiate the theorems below -/

/-- A concrete stored user (shaped like the `MOCK_USERS` seed entries, with a
credential secret). -/
def userAlex : User :=
  { id := "tech-1"
    name := "Alex Rivera"
    email := "Alex.R@ecohealth.com"
    role := UserRole.TECHNICIAN
    avatarUrl := none
    password := some "123"
    businessUnit := none
    segment := none }

/-- A store holding exactly `userAlex` and no check-ins or session. -/
def storeAlex : StoreState :=
  { users := [userAlex], checkins := [], session := none }

/-- The empty store (all three `localStorage` keys absent). -/
def emptyStore : StoreState :=
  { users := [], checkins := [], session := none }

/-- The default survey sliders of `HealthSurvey`. -/
def sampleAnswers : SurveyAnswers :=
  { sleepQuality := 3, energyLevel := 5, focusLevel := 5,
    motivationLevel := 5, feelingSafe := 5 }

/-- A concrete `INVALID` analysis result (expression gate tripped). -/
def invalidAnalysis : AIAnalysisResult :=
  { fatigueLevel := 0
    riskLevel := RiskLevel.INVALID
    explanation := "Keep a neutral face."
    recommendation := "Retake the photo." }

/-- A concrete `LOW` analysis result. -/
def lowAnalysis : AIAnalysisResult :=
  { fatigueLevel := 20
    riskLevel := RiskLevel.LOW
    explanation := "Ready."
    recommendation := "Proceed." }

/-- A concrete in-flight workflow state: image captured and validated,
`userAlex` logged in, `START_SHIFT` selected, survey on screen. -/
def flowAlex : AppFlowState :=
  { tempImage := some "data:image/jpeg;base64,AAA"
    currentUser := some userAlex
    selectedCheckInType := CheckInType.START_SHIFT
    currentView := View.CHECK_IN_SURVEY
    lastResult := none }

/-- A concrete stored check-in record belonging to `tech-1`. -/
def recAlex : CheckInRecord :=
  { id := "chk-t1-0"
    userId := "tech-1"
    timestamp := "2026-01-01T08:00:00.000Z"
    type := CheckInType.START_SHIFT
    imageUrl := none
    surveyAnswers := none
    analysis := some lowAnalysis
    location := none }

/-! ### Theorems -/

/-- C6: for every user id `U`, `deleteUser U` removes `U` from the user
collection and removes every `CheckInRecord` whose `userId` equals `U`, so
`getCheckInsByUser U` afterwards returns the empty collection — no orphan
records remain. -/
theorem deleteUser_cascades (U : String) (s : StoreState) :
    (∀ u ∈ getUsers (deleteUser U s), u.id ≠ U) ∧
    (∀ r ∈ getCheckIns (deleteUser U s), r.userId ≠ U) ∧
    getCheckInsByUser U (deleteUser U s) = [] := by
  refine ⟨?_, ?_, ?_⟩
  · intro u hu
    simp only [getUsers, deleteUser, List.mem_filter, decide_eq_true_eq] at hu
    exact hu.2
  · intro r hr
    simp only [getCheckIns, deleteUser, List.mem_filter, decide_eq_true_eq] at hr
    exact hr.2
  · rw [getCheckInsByUser, List.filter_eq_nil_iff]
    intro r hr
    simp only [getCheckIns, deleteUser, List.mem_filter, decide_eq_true_eq] at hr
    simp [hr.2]

/-- C8: `saveCheckIn` inserts each new record at the head of the ordered
collection and leaves existing records untouched: appending `R1` then `R2`
yields iteration order `R2 :: R1 :: previous records`, with the other two
collections unchanged. -/
theorem saveCheckIn_head_insert (R1 R2 : CheckInRecord) (s : StoreState) :
    getCheckIns (saveCheckIn R2 (saveCheckIn R1 s)) = R2 :: R1 :: getCheckIns s ∧
    getUsers (saveCheckIn R2 (saveCheckIn R1 s)) = getUsers s ∧
    getCurrentSession (saveCheckIn R2 (saveCheckIn R1 s)) = getCurrentSession s :=
  ⟨rfl, rfl, rfl⟩

/-- C10: frame property of deletion — `deleteUser U` keeps every user with a
different id and every record with a different `userId` present, unchanged
and in their original relative order (the surviving lists are sublists of
the originals), and leaves the session untouched. -/
theorem deleteUser_frame (U : String) (s : StoreState) :
    List.Sublist (getUsers (deleteUser U s)) (getUsers s) ∧
    List.Sublist (getCheckIns (deleteUser U s)) (getCheckIns s) ∧
    (∀ u, u ∈ getUsers (deleteUser U s) ↔ u ∈ getUsers s ∧ u.id ≠ U) ∧
    (∀ r, r ∈ getCheckIns (deleteUser U s) ↔ r ∈ getCheckIns s ∧ r.userId ≠ U) ∧
    getCurrentSession (deleteUser U s) = getCurrentSession s := by
  refine ⟨List.filter_sublist _, List.filter_sublist _, ?_, ?_, rfl⟩
  · intro u
    simp [getUsers, deleteUser, List.mem_filter]
  · intro r
    simp [getCheckIns, deleteUser, List.mem_filter]

/-- C5: registering with an email that case-insensitively matches an existing
user's email fails with the duplicate-email error and leaves the store —
users and session — exactly as it was; with no such match, exactly one new
user is appended and its credential-stripped copy is returned. -/
theorem registerUser_email_uniqueness (name email password : String)
    (role : UserRole) (avatarUrl : Option String) (bu : Option BusinessUnit)
    (seg : Option Segment) (newId : String) (s : StoreState) :
    ((∃ u ∈ getUsers s, jsToLower u.email = jsToLower email) →
      registerUser name email password role avatarUrl bu seg newId s =
        (Except.error emailAlreadyRegisteredMsg, s)) ∧
    ((∀ u ∈ getUsers s, jsToLower u.email ≠ jsToLower email) →
      (registerUser name email password role avatarUrl bu seg newId s).2.users =
        getUsers s ++ [mkNewUser name email password role avatarUrl bu seg newId] ∧
      (registerUser name email password role avatarUrl bu seg newId s).1 =
        Except.ok
          (stripPassword (mkNewUser name email password role avatarUrl bu seg newId))) := by
  constructor
  · rintro ⟨u, hu, he⟩
    have hsome : (getUserByEmail email s).isSome := by
      rw [getUserByEmail, List.find?_isSome]
      exact ⟨u, hu, by simp [he]⟩
    simp [registerUser, hsome]
  · intro h
    have hnone : getUserByEmail email s = none := by
      rw [getUserByEmail, List.find?_eq_none]
      intro u hu
      simpa using h u hu
    simp [registerUser, hnone, saveUser, getUsers]

/-- C5 witness: registering `bob@eco.com` against a store already holding the
same email in different case fails and leaves the store unchanged, while a
fresh email appends exactly one user. -/
theorem registerUser_email_uniqueness_witness :
    registerUser "Bob" "alex.r@ecohealth.com" "pw" UserRole.TECHNICIAN none
        none none "user-9" storeAlex =
      (Except.error emailAlreadyRegisteredMsg, storeAlex) ∧
    (registerUser "Bob" "bob@eco.com" "pw" UserRole.TECHNICIAN none
        none none "user-9" storeAlex).2.users =
      getUsers storeAlex ++
        [mkNewUser "Bob" "bob@eco.com" "pw" UserRole.TECHNICIAN none none none
          "user-9"] := by
  refine ⟨?_, ?_⟩
  · exact (registerUser_email_uniqueness "Bob" "alex.r@ecohealth.com" "pw"
      UserRole.TECHNICIAN none none none "user-9" storeAlex).1
      ⟨userAlex, by decide, by decide⟩
  · exact ((registerUser_email_uniqueness "Bob" "bob@eco.com" "pw"
      UserRole.TECHNICIAN none none none "user-9" storeAlex).2
      (by decide)).1

/-- C7: when no stored user matches the login email case-insensitively, or the
matched user's stored password differs from the supplied one, `loginUser`
fails with the invalid-credentials error and the current session (indeed
the entire store) is unchanged. -/
theorem loginUser_wrong_credentials (email password : String) (s : StoreState)
    (h : ∀ u ∈ getUsers s, jsToLower u.email = jsToLower email →
      u.password ≠ some password) :
    loginUser email password s = (Except.error invalidCredentialsMsg, s) ∧
    getCurrentSession (loginUser email password s).2 = getCurrentSession s := by
  have hmain : loginUser email password s = (Except.error invalidCredentialsMsg, s) := by
    cases hu : getUserByEmail email s with
    | none => simp [loginUser, hu]
    | some u =>
      have hmem : u ∈ s.users := List.mem_of_find?_eq_some hu
      have hbeq := List.find?_some hu
      have hlow : jsToLower u.email = jsToLower email := by simpa using hbeq
      have hpw : u.password ≠ some password := h u hmem hlow
      simp [loginUser, hu, hpw]
  exact ⟨hmain, by rw [hmain]⟩

/-- C7 witness: logging in as `alex.r@ecohealth.com` with the wrong password
against `storeAlex` fails with the invalid-credentials error and leaves the
(empty) session untouched. -/
theorem loginUser_wrong_credentials_witness :
    loginUser "alex.r@ecohealth.com" "wrong" storeAlex =
      (Except.error invalidCredentialsMsg, storeAlex) ∧
    getCurrentSession (loginUser "alex.r@ecohealth.com" "wrong" storeAlex).2 =
      getCurrentSession storeAlex :=
  loginUser_wrong_credentials "alex.r@ecohealth.com" "wrong" storeAlex
    (by decide)

/-- C9: every session stored by a successful `loginUser` or `registerUser` is
the matched/created user with the password removed and every other field
intact, and that same credential-stripped projection is the value returned
to the caller, so the stored session never carries a credential secret. -/
theorem session_never_holds_secret
    (email password : String) (u : User) (s : StoreState)
    (rname remail rpw : String) (role : UserRole) (ravatar : Option String)
    (rbu : Option BusinessUnit) (rseg : Option Segment) (rid : String)
    (s' : StoreState) (v : User) :
    (getUserByEmail email s = some u → u.password = some password →
      (loginUser email password s).1 = Except.ok (stripPassword u) ∧
      getCurrentSession (loginUser email password s).2 =
        some (stripPassword u)) ∧
    (getUserByEmail remail s' = none →
      (registerUser rname remail rpw role ravatar rbu rseg rid s').1 =
        Except.ok
          (stripPassword (mkNewUser rname remail rpw role ravatar rbu rseg rid)) ∧
      getCurrentSession
          (registerUser rname remail rpw role ravatar rbu rseg rid s').2 =
        some
          (stripPassword (mkNewUser rname remail rpw role ravatar rbu rseg rid))) ∧
    ((stripPassword v).password = none ∧ (stripPassword v).id = v.id ∧
      (stripPassword v).name = v.name ∧ (stripPassword v).email = v.email ∧
      (stripPassword v).role = v.role ∧
      (stripPassword v).avatarUrl = v.avatarUrl ∧
      (stripPassword v).businessUnit = v.businessUnit ∧
      (stripPassword v).segment = v.segment) := by
  refine ⟨?_, ?_, by simp [stripPassword]⟩
  · intro hu hpw
    simp [loginUser, hu, hpw, getCurrentSession]
  · intro hnone
    simp [registerUser, hnone, getCurrentSession]

/-- C9 witness: logging in as `userAlex` with the right password stores and
returns the password-stripped copy, and registering a fresh user against
the empty store does the same for the created user. -/
theorem session_never_holds_secret_witness :
    ((loginUser "alex.r@ecohealth.com" "123" storeAlex).1 =
        Except.ok (stripPassword userAlex) ∧
      getCurrentSession (loginUser "alex.r@ecohealth.com" "123" storeAlex).2 =
        some (stripPassword userAlex)) ∧
    ((registerUser "Bea" "bea@eco.com" "pw" UserRole.SUPERVISOR none none none
          "user-7" emptyStore).1 =
        Except.ok
          (stripPassword
            (mkNewUser "Bea" "bea@eco.com" "pw" UserRole.SUPERVISOR none none
              none "user-7")) ∧
      getCurrentSession
          (registerUser "Bea" "bea@eco.com" "pw" UserRole.SUPERVISOR none none
            none "user-7" emptyStore).2 =
        some
          (stripPassword
            (mkNewUser "Bea" "bea@eco.com" "pw" UserRole.SUPERVISOR none none
              none "user-7"))) := by
  have h := session_never_holds_secret "alex.r@ecohealth.com" "123" userAlex
    storeAlex "Bea" "bea@eco.com" "pw" UserRole.SUPERVISOR none none none
    "user-7" emptyStore userAlex
  exact ⟨h.1 (by decide) (by decide), h.2.1 (by decide)⟩

/-- C1: when the fatigue analysis returns `riskLevel = INVALID`,
`handleSurveySubmit` leaves the store — in particular the check-in
repository — exactly as it was, and (when an image and user are present)
merely shows the result view with that analysis; `saveCheckIn` is never
reached. -/
theorem invalid_attempt_not_persisted (analysis : AIAnalysisResult)
    (answers : SurveyAnswers) (newId timestamp : String)
    (app : AppFlowState) (s : StoreState)
    (hinv : analysis.riskLevel = RiskLevel.INVALID) :
    (handleSurveySubmit analysis answers newId timestamp app s).2 = s ∧
    (∀ img user, app.tempImage = some img → img ≠ "" →
      app.currentUser = some user →
      (handleSurveySubmit analysis answers newId timestamp app s).1.currentView =
          View.CHECK_IN_RESULT ∧
      (handleSurveySubmit analysis answers newId timestamp app s).1.lastResult =
          some analysis) := by
  constructor
  · cases himg : app.tempImage with
    | none => simp [handleSurveySubmit, himg]
    | some img =>
      cases huser : app.currentUser with
      | none => simp [handleSurveySubmit, himg, huser]
      | some user =>
        by_cases he : img = "" <;>
          simp [handleSurveySubmit, himg, huser, he, hinv]
  · intro img user himg hne huser
    simp [handleSurveySubmit, himg, huser, hne, hinv]

/-- C1 witness: an in-flight attempt by `userAlex` whose analysis is
`invalidAnalysis` leaves the store untouched and shows the result view. -/
theorem invalid_attempt_not_persisted_witness :
    (handleSurveySubmit invalidAnalysis sampleAnswers "chk-9" "t1" flowAlex
        storeAlex).2 = storeAlex ∧
    (handleSurveySubmit invalidAnalysis sampleAnswers "chk-9" "t1" flowAlex
        storeAlex).1.currentView = View.CHECK_IN_RESULT := by
  have h := invalid_attempt_not_persisted invalidAnalysis sampleAnswers
    "chk-9" "t1" flowAlex storeAlex (by decide)
  exact ⟨h.1, (h.2 "data:image/jpeg;base64,AAA" userAlex rfl (by decide) rfl).1⟩

/-- C2: when the fatigue analysis returns `riskLevel ≠ INVALID`,
`handleSurveySubmit` appends exactly one `CheckInRecord` at the head of
the repository, and that record carries the returned analysis, the
selected check-in type and the current user's id; the user collection is
untouched. -/
theorem valid_attempt_persists_one_record (analysis : AIAnalysisResult)
    (answers : SurveyAnswers) (newId timestamp : String)
    (app : AppFlowState) (s : StoreState) (img : String) (user : User)
    (himg : app.tempImage = some img) (hne : img ≠ "")
    (huser : app.currentUser = some user)
    (hval : analysis.riskLevel ≠ RiskLevel.INVALID) :
    getCheckIns (handleSurveySubmit analysis answers newId timestamp app s).2 =
      mkNewRecord newId timestamp user app.selectedCheckInType img answers
        analysis :: getCheckIns s ∧
    (mkNewRecord newId timestamp user app.selectedCheckInType img answers
        analysis).analysis = some analysis ∧
    (mkNewRecord newId timestamp user app.selectedCheckInType img answers
        analysis).type = app.selectedCheckInType ∧
    (mkNewRecord newId timestamp user app.selectedCheckInType img answers
        analysis).userId = user.id ∧
    getUsers (handleSurveySubmit analysis answers newId timestamp app s).2 =
      getUsers s := by
  refine ⟨?_, rfl, rfl, rfl, ?_⟩ <;>
    simp [handleSurveySubmit, himg, huser, hne, hval, saveCheckIn, getCheckIns,
      getUsers]

/-- C2 witness: a valid attempt by `userAlex` with `lowAnalysis` appends
exactly the constructed record at the head of the repository, with the
analysis, type and user id of the attempt. -/
theorem valid_attempt_persists_one_record_witness :
    getCheckIns (handleSurveySubmit lowAnalysis sampleAnswers "chk-9" "t1"
        flowAlex storeAlex).2 =
      mkNewRecord "chk-9" "t1" userAlex flowAlex.selectedCheckInType
        "data:image/jpeg;base64,AAA" sampleAnswers lowAnalysis ::
        getCheckIns storeAlex ∧
    (mkNewRecord "chk-9" "t1" userAlex flowAlex.selectedCheckInType
        "data:image/jpeg;base64,AAA" sampleAnswers lowAnalysis).analysis =
      some lowAnalysis := by
  have h := valid_attempt_persists_one_record lowAnalysis sampleAnswers
    "chk-9" "t1" flowAlex storeAlex "data:image/jpeg;base64,AAA" userAlex
    rfl (by decide) rfl (by decide)
  exact ⟨h.1, h.2.1⟩

/-- C3: override law of the (spec-modelled) RiskEngine — whenever the visual
fatigue score exceeds 70 on a valid expression, the decided risk level is
HIGH for every tier policy and every survey score; in particular at
Visual = 80, Survey = 10 the combined `finalScore` is only 66, yet the
tier is HIGH. -/
theorem visual_override_forces_high (tier : ℚ → RiskLevel)
    (visual survey : ℚ) (hv : 70 < visual) :
    riskDecision true tier visual survey = RiskLevel.HIGH ∧
    finalScore 80 10 = 66 := by
  constructor
  · simp [riskDecision, hv]
  · norm_num [finalScore]

/-- C3 witness: with a tier policy that never outputs HIGH on its own,
Visual = 80 and Survey = 10 still decide HIGH, while their combined
`finalScore` is 66. -/
theorem visual_override_forces_high_witness :
    riskDecision true (fun _ => RiskLevel.LOW) 80 10 = RiskLevel.HIGH ∧
    finalScore 80 10 = 66 :=
  visual_override_forces_high (fun _ => RiskLevel.LOW) 80 10 (by norm_num)

/-- C4: the gateway calls never raise to the caller — on any failure
(`none` outcome) `validateFace` returns `isValid = false` with the
connection-error message and `analyzeFatigue` returns exactly
`fatigueLevel = 0`, `riskLevel = INVALID` and the connection-error /
retry texts chosen by the `lang` argument; on success each returns the
parsed result unchanged. -/
theorem gateway_absorbs_failures (lang : Language) (r : FaceCheckResult)
    (a : AIAnalysisResult) :
    validateFace none =
      { isValid := false, message := some "AI Connection Error. Check Key." } ∧
    validateFace (some r) = r ∧
    analyzeFatigue none lang =
      { fatigueLevel := 0
        riskLevel := RiskLevel.INVALID
        explanation :=
          if lang = Language.pt then
            "Erro na conexão com IA ou Chave de API inválida."
          else
            "AI Connection Error."
        recommendation :=
          if lang = Language.pt then "Tente novamente mais tarde."
          else "Try again." } ∧
    analyzeFatigue (some a) lang = a := by
  refine ⟨rfl, rfl, ?_, rfl⟩
  simp [analyzeFatigue, analyzeFallback, faceConnectionErrorMsg]

end EcoHealth
